import Mathlib

/-!
Shallow embedding of the `jsb17/mcp` natural-language-to-SQL orchestration
pipeline: the planner / executor / answer-generator nodes of the host
(`src/mcp_host`), the thread-safe tool wrapper (`src/mcp_host/mcp_wrapper.py`),
and the conversation-memory server (`src/mcp_server/server_memory.py`).

Python values flowing through the pipeline (parsed JSON, tool arguments, tool
results) are modelled by the inductive `JValue`.  Python `dict`s are modelled
as insertion-ordered association lists without duplicate keys, which is the
observable behaviour of CPython dicts for the operations the source uses
(`get`, `in`, item assignment).  Fallible Python operations are modelled in
the `Except PyErr` monad; an `error` result models an uncaught exception.
-/

namespace MCP

/-- JSON-serialisable Python values.  Non-integral JSON numbers are kept as a
scaled decimal `mantissa * 10 ^ exp`; `nonfinite` covers the `NaN`,
`Infinity` and `-Infinity` constants that Python's `json.loads` accepts. -/
inductive JValue where
  | null : JValue
  | boolean : Bool → JValue
  | num : Int → JValue
  | flt : Int → Int → JValue
  | nonfinite : Bool → Bool → JValue
  | str : String → JValue
  | arr : List JValue → JValue
  | obj : List (String × JValue) → JValue
deriving Repr

mutual

/-- Structural equality of Python JSON values (`==`).  Python's cross-type
numeric equalities (`True == 1`, `1 == 1.0`) are not exercised by the
sources, which only compare function-name values against string literals
and tool-name strings. -/
def beqJ : JValue → JValue → Bool
  | .null, .null => true
  | .boolean a, .boolean b => a == b
  | .num a, .num b => a == b
  | .flt a b, .flt c d => a == c && b == d
  | .nonfinite a b, .nonfinite c d => a == c && b == d
  | .str a, .str b => a == b
  | .arr a, .arr b => beqElems a b
  | .obj a, .obj b => beqFields a b
  | _, _ => false

/-- Pointwise equality of JSON lists. -/
def beqElems : List JValue → List JValue → Bool
  | [], [] => true
  | a :: as_, b :: bs => beqJ a b && beqElems as_ bs
  | _, _ => false

/-- Pointwise equality of JSON object entries. -/
def beqFields : List (String × JValue) → List (String × JValue) → Bool
  | [], [] => true
  | (k, v) :: as_, (k', v') :: bs => k == k' && beqJ v v' && beqFields as_ bs
  | _, _ => false

end

instance : BEq JValue := ⟨beqJ⟩

/-- Python exception classes that the modelled code can raise. -/
inductive PyErr where
  | typeError : PyErr
  | valueError : PyErr
  | attributeError : PyErr
deriving Repr, DecidableEq

/-- Lookup in an insertion-ordered dict (association list). -/
def dictGet? (fs : List (String × JValue)) (k : String) : Option JValue :=
  match fs with
  | [] => none
  | (k', v) :: rest => if k' = k then some v else dictGet? rest k

/-- Model of `d[k] = v` on an insertion-ordered dict: overwrite in place when the key
exists, append otherwise (CPython dict semantics). -/
def dictSet (fs : List (String × JValue)) (k : String) (v : JValue) :
    List (String × JValue) :=
  match fs with
  | [] => [(k, v)]
  | (k', v') :: rest =>
    if k' = k then (k, v) :: rest else (k', v') :: dictSet rest k v

/-- Model of `dict.get(k, default)`. -/
def jgetD (fs : List (String × JValue)) (k : String) (dflt : JValue) : JValue :=
  (dictGet? fs k).getD dflt

/-- Model of `dict.get(k)` (default `None`). -/
def jget (fs : List (String × JValue)) (k : String) : JValue :=
  jgetD fs k .null

/-- Python truthiness of a `JValue` (`bool(v)`). -/
def pyTruthy : JValue → Bool
  | .null => false
  | .boolean b => b
  | .num n => n != 0
  | .flt m _ => m != 0
  | .nonfinite _ _ => true
  | .str s => s ≠ ""
  | .arr xs => !xs.isEmpty
  | .obj fs => !fs.isEmpty

/-- Model of `a or b` on Python values: the first operand when truthy, else the second. -/
def pyOr (a b : JValue) : JValue :=
  if pyTruthy a then a else b

/-- Quote-and-escape used by `repr` on strings.  Python chooses the quote
character and escapes non-printables; the sources only ever format plain
text without quotes or control characters, so single quotes with
backslash/quote escaping is the behaviour on the exercised domain. -/
def pyEscape (s : String) : String :=
  String.join (s.data.map fun c =>
    if c = '\\' then "\\\\"
    else if c = '\'' then "\\'"
    else String.singleton c)

mutual

/-- Python `repr` of a `JValue`.  Float rendering is abstracted (no claim
inspects the textual form of a non-integral number). -/
def pyRepr : JValue → String
  | .null => "None"
  | .boolean b => if b then "True" else "False"
  | .num n => toString n
  | .flt m e => toString m ++ "e" ++ toString e
  | .nonfinite neg isnan => if isnan then "nan" else if neg then "-inf" else "inf"
  | .str s => "'" ++ pyEscape s ++ "'"
  | .arr xs => "[" ++ pyReprElems xs ++ "]"
  | .obj fs => "\x7b" ++ pyReprFields fs ++ "\x7d"

/-- Comma-joined `repr`s of list elements. -/
def pyReprElems : List JValue → String
  | [] => ""
  | [x] => pyRepr x
  | x :: xs => pyRepr x ++ ", " ++ pyReprElems xs

/-- Comma-joined `repr`s of dict entries. -/
def pyReprFields : List (String × JValue) → String
  | [] => ""
  | [(k, v)] => "'" ++ pyEscape k ++ "': " ++ pyRepr v
  | (k, v) :: fs => "'" ++ pyEscape k ++ "': " ++ pyRepr v ++ ", " ++ pyReprFields fs

end

/-- Python `str()` of a `JValue`: the string itself for strings, `repr`
otherwise (matches CPython for the JSON-serialisable values used here). -/
def pyStr : JValue → String
  | .str s => s
  | v => pyRepr v

/-- Model of `key in container` for a string key: dicts check keys, lists check
membership, strings check substring; other receivers raise `TypeError`. -/
def pyContains (container : JValue) (key : String) : Except PyErr Bool :=
  match container with
  | .obj fs => .ok ((dictGet? fs key).isSome)
  | .arr xs => .ok (xs.contains (.str key))
  | .str s => .ok ((s.splitOn key).length > 1)
  | _ => .error .typeError

/-- Model of `container[key] = v` for a string key: only dicts accept it; item
assignment on any other JSON value raises `TypeError`. -/
def pySetItem (container : JValue) (key : String) (v : JValue) :
    Except PyErr JValue :=
  match container with
  | .obj fs => .ok (.obj (dictSet fs key v))
  | _ => .error .typeError

/-- Model of `container.get(key, default)`: only dicts have `.get`; any other value
raises `AttributeError`. -/
def pyGetAttrD (container : JValue) (key : String) (dflt : JValue) :
    Except PyErr JValue :=
  match container with
  | .obj fs => .ok (jgetD fs key dflt)
  | _ => .error .attributeError

/-! ### `json.loads`

A recursive-descent parser for the dialect accepted by Python's `json.loads`
with default options: the RFC 8259 grammar plus the constants `NaN`,
`Infinity` and `-Infinity`; strict strings (unescaped control characters
rejected); duplicate object keys resolved last-occurrence-wins; no data may
follow the top-level value.  The mutual recursion is fuelled; `jsonLoads`
supplies fuel exceeding any possible call depth for its input. -/

/-- The whitespace characters `json` skips between tokens. -/
def isJWs (c : Char) : Bool :=
  c = ' ' || c = '\t' || c = '\n' || c = '\r'

def skipJWs (cs : List Char) : List Char := cs.dropWhile isJWs

def digitsToNat (ds : List Char) (acc : Nat) : Nat :=
  match ds with
  | [] => acc
  | c :: cs => digitsToNat cs (acc * 10 + (c.toNat - '0'.toNat))

/-- Split a maximal run of decimal digits off the front. -/
def takeDigits (cs : List Char) : List Char × List Char :=
  (cs.takeWhile Char.isDigit, cs.dropWhile Char.isDigit)

/-- Number token per Python's JSON number regex
`(-?(?:0|[1-9]\d*))(\.\d+)?([eE][-+]?\d+)?`: integral tokens become `num`,
anything with a fraction or exponent becomes a scaled-decimal `flt`. -/
def parseNumber (cs : List Char) : Option (JValue × List Char) :=
  let (neg, cs1) := match cs with
    | '-' :: t => (true, t)
    | _ => (false, cs)
  let intPart? : Option (List Char × List Char) := match cs1 with
    | '0' :: t => some (['0'], t)
    | c :: t =>
      if c.isDigit then some (takeDigits (c :: t)) else none
    | [] => none
  match intPart? with
  | none => none
  | some (ints, r1) =>
    if ints ≠ ['0'] ∧ ints.headD '0' = '0' then none else
    let (frac, r2) : List Char × List Char := match r1 with
      | '.' :: t =>
        if (t.headD ' ').isDigit then
          let (ds, r) := takeDigits t
          (ds, r)
        else ([], r1)
      | _ => ([], r1)
    let expPart? : Option (Bool × List Char × List Char) := match r2 with
      | 'e' :: t | 'E' :: t =>
        let (esign, t1) := match t with
          | '-' :: u => (true, u)
          | '+' :: u => (false, u)
          | _ => (false, t)
        if (t1.headD ' ').isDigit then
          let (ds, r) := takeDigits t1
          some (esign, ds, r)
        else none
      | _ => none
    let mag : Nat := digitsToNat (ints ++ frac) 0
    let mant : Int := if neg then -(mag : Int) else (mag : Int)
    match frac, expPart? with
    | [], none => some (.num mant, r2)
    | _, none => some (.flt mant (-(frac.length : Int)), r2)
    | _, some (esign, eds, r3) =>
      let ev : Int :=
        (if esign then -(digitsToNat eds 0 : Int) else (digitsToNat eds 0 : Int))
      some (.flt mant (ev - (frac.length : Int)), r3)

def hexVal? (c : Char) : Option Nat :=
  if c.isDigit then some (c.toNat - '0'.toNat)
  else if 'a' ≤ c ∧ c ≤ 'f' then some (c.toNat - 'a'.toNat + 10)
  else if 'A' ≤ c ∧ c ≤ 'F' then some (c.toNat - 'A'.toNat + 10)
  else none

/-- String token body, after the opening quote.  `\uXXXX` escapes become the
code point directly (surrogate-pair recombination is not modelled; no input
exercised by the sources uses `\u` escapes). -/
def parseStringBody : List Char → List Char → Option (String × List Char)
  | [], _ => none
  | '"' :: rest, acc => some (String.mk acc.reverse, rest)
  | '\\' :: e :: rest, acc =>
    match e with
    | '"' => parseStringBody rest ('"' :: acc)
    | '\\' => parseStringBody rest ('\\' :: acc)
    | '/' => parseStringBody rest ('/' :: acc)
    | 'b' => parseStringBody rest ('\x08' :: acc)
    | 'f' => parseStringBody rest ('\x0c' :: acc)
    | 'n' => parseStringBody rest ('\n' :: acc)
    | 'r' => parseStringBody rest ('\r' :: acc)
    | 't' => parseStringBody rest ('\t' :: acc)
    | 'u' =>
      match rest with
      | h1 :: h2 :: h3 :: h4 :: rest' =>
        match hexVal? h1, hexVal? h2, hexVal? h3, hexVal? h4 with
        | some a, some b, some c, some d =>
          parseStringBody rest' (Char.ofNat (((a * 16 + b) * 16 + c) * 16 + d) :: acc)
        | _, _, _, _ => none
      | _ => none
    | _ => none
  | c :: rest, acc =>
    if c.toNat < 0x20 then none else parseStringBody rest (c :: acc)

mutual

/-- Parse one JSON value at the head of the input (no leading whitespace). -/
def parseValue : Nat → List Char → Option (JValue × List Char)
  | 0, _ => none
  | Nat.succ fuel, cs =>
    match cs with
    | '"' :: rest => (parseStringBody rest []).map fun p => (.str p.1, p.2)
    | '\x7b' :: rest =>
      (match skipJWs rest with
       | '\x7d' :: r => some (.obj [], r)
       | r => parseObjItems fuel r [])
    | '[' :: rest =>
      (match skipJWs rest with
       | ']' :: r => some (.arr [], r)
       | r => parseArrItems fuel r [])
    | 't' :: 'r' :: 'u' :: 'e' :: rest => some (.boolean true, rest)
    | 'f' :: 'a' :: 'l' :: 's' :: 'e' :: rest => some (.boolean false, rest)
    | 'n' :: 'u' :: 'l' :: 'l' :: rest => some (.null, rest)
    | 'N' :: 'a' :: 'N' :: rest => some (.nonfinite false true, rest)
    | 'I' :: 'n' :: 'f' :: 'i' :: 'n' :: 'i' :: 't' :: 'y' :: rest =>
      some (.nonfinite false false, rest)
    | '-' :: 'I' :: 'n' :: 'f' :: 'i' :: 'n' :: 'i' :: 't' :: 'y' :: rest =>
      some (.nonfinite true false, rest)
    | _ => parseNumber cs

/-- Array elements, positioned at a value; accumulates parsed elements. -/
def parseArrItems (fuel : Nat) (cs : List Char) (acc : List JValue) :
    Option (JValue × List Char) :=
  match fuel with
  | 0 => none
  | Nat.succ fuel =>
    match parseValue fuel cs with
    | none => none
    | some (v, rest) =>
      match skipJWs rest with
      | ']' :: r => some (.arr (acc ++ [v]), r)
      | ',' :: r => parseArrItems fuel (skipJWs r) (acc ++ [v])
      | _ => none

/-- Object members, positioned at a key; duplicate keys overwrite. -/
def parseObjItems (fuel : Nat) (cs : List Char) (acc : List (String × JValue)) :
    Option (JValue × List Char) :=
  match fuel with
  | 0 => none
  | Nat.succ fuel =>
    match cs with
    | '"' :: rest =>
      (match parseStringBody rest [] with
       | none => none
       | some (k, r1) =>
         match skipJWs r1 with
         | ':' :: r2 =>
           (match parseValue fuel (skipJWs r2) with
            | none => none
            | some (v, r3) =>
              match skipJWs r3 with
              | '\x7d' :: r4 => some (.obj (dictSet acc k v), r4)
              | ',' :: r4 => parseObjItems fuel (skipJWs r4) (dictSet acc k v)
              | _ => none)
         | _ => none)
    | _ => none

end

/-- Model of `json.loads(s)`: `none` models a raised `json.JSONDecodeError`. -/
def jsonLoads (s : String) : Option JValue :=
  match parseValue (2 * s.data.length + 8) (skipJWs s.data) with
  | some (v, rest) => if (skipJWs rest).isEmpty then some v else none
  | none => none

/-- Model of `json.loads` applied to an arbitrary Python value: non-string input
raises `TypeError`, an unparsable string raises `json.JSONDecodeError`
(a `ValueError`). -/
def jsonLoadsJ (v : JValue) : Except PyErr JValue :=
  match v with
  | .str s =>
    match jsonLoads s with
    | some r => .ok r
    | none => .error .valueError
  | _ => .error .typeError

/-! ### `json.dumps(..., indent=2, ensure_ascii=False)` -/

def hexDigit (n : Nat) : Char :=
  if n < 10 then Char.ofNat ('0'.toNat + n) else Char.ofNat ('a'.toNat + n - 10)

/-- JSON string escaping with `ensure_ascii=False`: only the quote, the
backslash and control characters are escaped. -/
def jEscape (s : String) : String :=
  String.join (s.data.map fun c =>
    if c = '"' then "\\\""
    else if c = '\\' then "\\\\"
    else if c = '\n' then "\\n"
    else if c = '\t' then "\\t"
    else if c = '\r' then "\\r"
    else if c = '\x08' then "\\b"
    else if c = '\x0c' then "\\f"
    else if c.toNat < 0x20 then
      "\\u00" ++ String.mk [hexDigit (c.toNat / 16), hexDigit (c.toNat % 16)]
    else String.singleton c)

def spaces (n : Nat) : String := String.mk (List.replicate n ' ')

mutual

/-- Model of `json.dumps(v, indent=2, ensure_ascii=False)`, at nesting indent `ind`.
Non-integral number rendering is abstracted (no claim inspects it). -/
def jdump : Nat → JValue → String
  | _, .null => "null"
  | _, .boolean b => if b then "true" else "false"
  | _, .num n => toString n
  | _, .flt m e => toString m ++ "e" ++ toString e
  | _, .nonfinite neg isnan =>
    if isnan then "NaN" else if neg then "-Infinity" else "Infinity"
  | _, .str s => "\"" ++ jEscape s ++ "\""
  | _, .arr [] => "[]"
  | ind, .arr (x :: xs) =>
    "[\n" ++ jdumpElems (ind + 2) (x :: xs) ++ "\n" ++ spaces ind ++ "]"
  | _, .obj [] => "\x7b\x7d"
  | ind, .obj (f :: fs) =>
    "\x7b\n" ++ jdumpFields (ind + 2) (f :: fs) ++ "\n" ++ spaces ind ++ "\x7d"

/-- Indented, comma-separated array elements. -/
def jdumpElems : Nat → List JValue → String
  | _, [] => ""
  | ind, [x] => spaces ind ++ jdump ind x
  | ind, x :: xs => spaces ind ++ jdump ind x ++ ",\n" ++ jdumpElems ind xs

/-- Indented, comma-separated object members. -/
def jdumpFields : Nat → List (String × JValue) → String
  | _, [] => ""
  | ind, [(k, v)] => spaces ind ++ "\"" ++ jEscape k ++ "\": " ++ jdump ind v
  | ind, (k, v) :: fs =>
    spaces ind ++ "\"" ++ jEscape k ++ "\": " ++ jdump ind v ++ ",\n" ++
      jdumpFields ind fs

end

/-- Model of `json.dumps(v, indent=2, ensure_ascii=False)` as called by the nodes. -/
def jsonDumpsIndent2 (v : JValue) : String := jdump 0 v

/-! ### String cleaning helpers (`src/utils/utils.py`)

`strip_code_block` and `strip_think_block` are the regex-based helpers the
planner node applies to the raw model response.  The regexes are translated
to explicit scanning functions with the same leftmost-match / lazy-group
semantics; the `\w` and `\s` character classes are taken at their ASCII
extension (the exercised inputs are code fences and `<think>` tags). -/

/-- The whitespace set of Python's `str.strip` and the regex class `\s`. -/
def isPyWs (c : Char) : Bool :=
  c = ' ' || c = '\t' || c = '\n' || c = '\r' || c = '\x0b' || c = '\x0c'

/-- Model of `text.strip()` on the character list. -/
def stripChars (cs : List Char) : List Char :=
  ((cs.dropWhile isPyWs).reverse.dropWhile isPyWs).reverse

/-- Model of `text.strip()`. -/
def pyStrip (s : String) : String := String.mk (stripChars s.data)

/-- Index of the first occurrence of `needle` in the haystack. -/
def findSub (needle : List Char) : List Char → Option Nat
  | [] => if needle.isEmpty then some 0 else none
  | c :: t =>
    if needle.isPrefixOf (c :: t) then some 0
    else (findSub needle t).map (· + 1)

/-- The regex class `\w` (ASCII). -/
def isWordChar (c : Char) : Bool :=
  c.isAlpha || c.isDigit || c = '_'

/-- Model of `strip_code_block` (`src/utils/utils.py`): extract the body of the first
code fence via `re.search(r"```(?:\w+)?\s*([\s\S]*?)\s*```", text.strip())`,
returning `group(1).strip()` on a match and `text.strip()` otherwise.  A
match starts at the first fence and its lazy body ends at the next fence;
the greedy `\w+`/`\s*` runs after the opening fence cannot contain a
backtick, so searching from the first fence is exhaustive. -/
def strip_code_block (text : String) : String :=
  let t := stripChars text.data
  let fence := "```".data
  match findSub fence t with
  | none => String.mk t
  | some i =>
    let body0 := ((t.drop (i + 3)).dropWhile isWordChar).dropWhile isPyWs
    match findSub fence body0 with
    | none => String.mk t
    | some q => String.mk (stripChars (body0.take q))

/-- One pass of `re.sub(r"<think>.*?</think>", "", text, flags=re.DOTALL)`:
remove leftmost, non-overlapping, lazily matched tag pairs.  The fuel only
bounds the number of removals, each of which consumes at least 15
characters, so `text.length` is always sufficient. -/
def removeThinkAux : Nat → List Char → List Char
  | 0, cs => cs
  | Nat.succ fuel, cs =>
    match findSub "<think>".data cs with
    | none => cs
    | some i =>
      let rest := cs.drop (i + 7)
      match findSub "</think>".data rest with
      | none => cs
      | some j => cs.take i ++ removeThinkAux fuel (rest.drop (j + 8))

/-- Model of `strip_think_block` (`src/utils/utils.py`). -/
def strip_think_block (text : String) : String :=
  String.mk (stripChars (removeThinkAux text.data.length text.data))

/-! ### Agent state (`src/mcp_host/state.py`) -/

/-- One entry of the `executed_results` log built by the executor:
`{"function": fn_name, "arguments": args, "result": str(tool_result)}`.
The `result` value is always a string (either `str(...)` of the tool output
or the synthetic rejection message). -/
structure ExecutedResult where
  function : JValue
  arguments : JValue
  result : String
deriving Repr

/-- Model of `AgentState` (`src/mcp_host/state.py`).  `messages` holds chat-history
entries whose contents none of the modelled nodes inspect; `tool_calls`
holds the JSON values parsed from the planner response (one per planned
invocation); `dataframe` is modelled by the parsed row records the
`pd.DataFrame` is built from. -/
structure AgentState where
  messages : List String
  question : String
  tool_calls : List JValue
  executed_results : List ExecutedResult
  dataframe : JValue
  final_answer : String
  session_id : String
deriving Repr

/-! ### Tool wrapper (`src/mcp_host/mcp_wrapper.py`) -/

/-- A loaded tool: its registered name and its invocation behaviour.  `run`
covers everything `ainvoke` plus the wrapper's `try/except` can produce —
the tool result, or a timeout/exception marker string — so it is total. -/
structure MTool where
  name : String
  run : JValue → JValue

/-- The observable state of `ThreadSafeMCPWrapper`: whether `initialize`
completed, and the flat list of loaded tools. -/
structure ThreadSafeMCPWrapper where
  initialized : Bool
  all_tools : List MTool

/-- Model of `ThreadSafeMCPWrapper.execute_tool`: a not-initialized marker, the first
tool whose `name` equals the requested name, or a descriptive not-found
string (the f-string interpolates `str(tool_name)`).  Every branch returns a
value — no exception escapes. -/
def ThreadSafeMCPWrapper.execute_tool (w : ThreadSafeMCPWrapper)
    (tool_name : JValue) (args : JValue) : JValue :=
  if !w.initialized then .str "MCP 클라이언트가 초기화되지 않았습니다"
  else
    match w.all_tools.find? (fun t => (JValue.str t.name) == tool_name) with
    | some t => t.run args
    | none => .str ("도구 '" ++ pyStr tool_name ++ "'를 찾을 수 없습니다")

/-! ### Executor node (`src/mcp_host/nodes/execute_tools.py`)

The loop body of `execute_tools_node` is factored into `execStep` (one
planned invocation) and `runCalls` (the fold over the plan, threading the
in-run result lookup table `memory`).  Python's in-place mutation of each
call's `arguments` dict is modelled by returning the invocation as it is
left in `tool_calls` after the iteration. -/

/-- The in-run lookup table `memory`, keyed by the resolved function-name
value (`memory[fn_name] = tool_result`). -/
abbrev Memory := List (JValue × JValue)

/-- Model of `memory.get(k, default)`. -/
def memLookup (mem : Memory) (k : JValue) : Option JValue :=
  match mem with
  | [] => none
  | (k', v) :: rest => if k' == k then some v else memLookup rest k

def memGet (mem : Memory) (k dflt : JValue) : JValue :=
  (memLookup mem k).getD dflt

/-- Model of `memory[k] = v`. -/
def memSet (mem : Memory) (k v : JValue) : Memory :=
  match mem with
  | [] => [(k, v)]
  | (k', v') :: rest =>
    if k' == k then (k, v) :: rest else (k', v') :: memSet rest k v

/-- Model of `fn_name = call.get("function_name") or call.get("function") or
call.get("name")` for a dict invocation (`or` keeps the first truthy
operand; on a dict every `get` is total, so evaluating all three eagerly is
equivalent to Python's short-circuit). -/
def resolve_function_name (fs : List (String × JValue)) : JValue :=
  pyOr (pyOr (jget fs "function_name") (jget fs "function")) (jget fs "name")

/-- Session-id injection: for the three memory tools, `session_id` is set on
the argument dict when absent.  Membership tests and item assignment follow
Python semantics, so a non-dict `arguments` value can raise. -/
def injectSession (fn : JValue) (session_id : String) (args : JValue) :
    Except PyErr JValue :=
  if fn == .str "get_messages" || fn == .str "search_messages" ||
      fn == .str "save_message" then
    match pyContains args "session_id" with
    | .error e => .error e
    | .ok true => .ok args
    | .ok false => pySetItem args "session_id" (.str session_id)
  else .ok args

/-- Outcome of the SQL argument-chaining rules for one invocation. -/
inductive ChainResult where
  | proceed : JValue → ChainResult
  | reject : String → JValue → ChainResult
deriving Repr

/-- The SQL chaining rules of the executor loop:
* `generate_sql`: `natural_query := question`,
  `schema_info := memory.get("get_schema_info", {})`;
* `validate_sql`: `sql := memory.get("generate_sql", "")`;
* `execute_sql`: parse `memory.get("validate_sql", "{}")` with `json.loads`;
  a falsy `valid` field yields `reject` with the synthetic message and the
  unmodified arguments (the loop `continue`s), otherwise
  `exec_sql := str(validation_res.get("sql", ""))`;
* any other function name: arguments pass through unchanged. -/
def chainArgs (question : String) (mem : Memory) (fn args : JValue) :
    Except PyErr ChainResult :=
  if fn == .str "generate_sql" then
    match pySetItem args "natural_query" (.str question) with
    | .error e => .error e
    | .ok a1 =>
      match pySetItem a1 "schema_info" (memGet mem (.str "get_schema_info") (.obj [])) with
      | .error e => .error e
      | .ok a2 => .ok (.proceed a2)
  else if fn == .str "validate_sql" then
    match pySetItem args "sql" (memGet mem (.str "generate_sql") (.str "")) with
    | .error e => .error e
    | .ok a1 => .ok (.proceed a1)
  else if fn == .str "execute_sql" then
    match jsonLoadsJ (memGet mem (.str "validate_sql") (.str "\x7b\x7d")) with
    | .error e => .error e
    | .ok vres =>
      match pyGetAttrD vres "valid" (.boolean false) with
      | .error e => .error e
      | .ok valid =>
        if !pyTruthy valid then
          match pyGetAttrD vres "message" (.str "") with
          | .error e => .error e
          | .ok msg => .ok (.reject ("SQL이 유효하지 않습니다: " ++ pyStr msg) args)
        else
          match pyGetAttrD vres "sql" (.str "") with
          | .error e => .error e
          | .ok sqlv =>
            match pySetItem args "exec_sql" (.str (pyStr sqlv)) with
            | .error e => .error e
            | .ok a1 => .ok (.proceed a1)
  else .ok (.proceed args)

/-- How one loop iteration leaves the world. -/
structure StepOut where
  /-- The entry appended to `executed_results`, if any. -/
  record : Option ExecutedResult
  /-- The invocation as it is left in `tool_calls` (its `arguments` dict may
  have been mutated in place). -/
  call : JValue
  /-- The lookup table after the iteration. -/
  mem : Memory
  /-- The `(fn_name, args)` pair passed to `mcp_wrapper.execute_tool`, when
  the iteration reached the tool-execution step. -/
  invoked : Option (JValue × JValue)
deriving Repr

/-- Mutating `args` in place is visible through `call` exactly when the
invocation dict has an `"arguments"` key (otherwise `args` is the fresh
default dict). -/
def updateCallArgs (call : JValue) (args : JValue) : JValue :=
  match call with
  | .obj fs => if (dictGet? fs "arguments").isSome then .obj (dictSet fs "arguments" args) else .obj fs
  | other => other

/-- One iteration of the executor loop.  A non-dict invocation raises
`AttributeError` at the first `.get`; a falsy resolved function name is
silently skipped (`continue` before any record is appended); a rejected
`execute_sql` appends the synthetic record without executing; otherwise the
wrapper is called, the result is stored in `memory`, and a record with
`str(tool_result)` is appended. -/
def execStep (w : ThreadSafeMCPWrapper) (question session_id : String)
    (call : JValue) (mem : Memory) : Except PyErr StepOut :=
  match call with
  | .obj fs =>
    let fn := resolve_function_name fs
    let args0 := jgetD fs "arguments" (.obj [])
    if !pyTruthy fn then .ok ⟨none, .obj fs, mem, none⟩
    else
      match injectSession fn session_id args0 with
      | .error e => .error e
      | .ok args1 =>
        match chainArgs question mem fn args1 with
        | .error e => .error e
        | .ok (.reject msg a) =>
          .ok ⟨some ⟨fn, a, msg⟩, updateCallArgs (.obj fs) a, mem, none⟩
        | .ok (.proceed a) =>
          let tr := w.execute_tool fn a
          .ok ⟨some ⟨fn, a, pyStr tr⟩, updateCallArgs (.obj fs) a,
               memSet mem fn tr, some (fn, a)⟩
  | _ => .error .attributeError

/-- Everything observable about one run of the executor loop. -/
structure RunOutcome where
  results : List ExecutedResult
  calls : List JValue
  invoked : List (JValue × JValue)
deriving Repr

/-- The executor loop: fold `execStep` over the plan, threading `memory`. -/
def runCalls (w : ThreadSafeMCPWrapper) (question session_id : String) :
    List JValue → Memory → Except PyErr RunOutcome
  | [], _ => .ok ⟨[], [], []⟩
  | call :: rest, mem =>
    match execStep w question session_id call mem with
    | .error e => .error e
    | .ok s =>
      match runCalls w question session_id rest s.mem with
      | .error e => .error e
      | .ok o => .ok ⟨s.record.toList ++ o.results, s.call :: o.calls,
                      s.invoked.toList ++ o.invoked⟩

/-- Model of `execute_tools_node`: runs the plan with an initially empty lookup table
and assigns `state["executed_results"]`; the in-place mutations of the
invocation dicts are visible through `tool_calls`. -/
def execute_tools_node (state : AgentState) (w : ThreadSafeMCPWrapper) :
    Except PyErr AgentState :=
  match runCalls w state.question state.session_id state.tool_calls [] with
  | .error e => .error e
  | .ok o => .ok { state with executed_results := o.results, tool_calls := o.calls }

/-! ### Planner node (`src/mcp_host/nodes/plan_tools.py`)

Only the response-handling tail of the node is state-relevant; the HTTP
exchange is modelled by passing the raw model response `llm_response`.  The
`try` block wraps `json.loads` and the assignment, and the `except` handler
catches every exception, so the node is total. -/

/-- Model of `plan_tools_node`, given the raw model response. -/
def plan_tools_node (state : AgentState) (llm_response : String) : AgentState :=
  let cleaned_response := strip_think_block (strip_code_block llm_response)
  match jsonLoads cleaned_response with
  | some (.arr parsed_calls) => { state with tool_calls := parsed_calls }
  | some parsed => { state with tool_calls := [parsed] }
  | none => { state with tool_calls := [], final_answer := cleaned_response }

/-! ### Answer node (`src/mcp_host/nodes/generate_answer.py`) -/

/-- Model of `get_generate_answer_node_prompt` (`src/utils/utils.py`); the executed
results render through `json.dumps(..., indent=2, ensure_ascii=False)`. -/
def get_generate_answer_node_prompt (question : String)
    (executed_results : List ExecutedResult) : String :=
  "다음은 사용자의 질문 및 MCP 도구 실행 결과입니다.\n\n" ++
  "사용자 질문:\n" ++ question ++ "\n\n" ++
  "MCP 도구 실행 결과:\n" ++
  jsonDumpsIndent2 (.arr (executed_results.map fun r =>
    .obj [("function", r.function), ("arguments", r.arguments),
          ("result", .str r.result)])) ++
  "\n\n실행 결과를 기반으로 하여 사용자 질문에 대한 답변을 자연스럽게 작성하세요."

/-- Model of `generate_answer_node`, with the chat-completion endpoint as the oracle
`llm` (system prompt ↦ response content).  The returned `Nat` counts the
requests sent to the endpoint.  An empty `executed_results` list
short-circuits to the fixed cannot-answer message with zero requests;
otherwise the first `execute_sql` record (if any) is re-parsed as JSON
(`json.loads` may raise), the `dataframe` is built from it, and exactly one
request is sent; the response has reasoning markup stripped. -/
def generate_answer_node (state : AgentState) (llm : String → String) :
    Except PyErr (AgentState × Nat) :=
  if state.executed_results.isEmpty then
    .ok ({ state with final_answer := "도구를 사용할 수 없어 답변을 생성할 수 없습니다." }, 0)
  else
    match state.executed_results.find? (fun item => item.function == .str "execute_sql") with
    | some execute_sql_item =>
      match jsonLoads execute_sql_item.result with
      | none => .error .valueError
      | some executed_results_json =>
        let system_prompt :=
          "다음은 사용자의 질문에 대한 Text to SQL 실행 결과입니다." ++
          "실행 결과를 분석하여 사용자에게 간단한 분석 보고서를 제공하세요\n\n" ++
          jsonDumpsIndent2 executed_results_json
        let state' := { state with
          dataframe := executed_results_json
          final_answer := strip_think_block (llm system_prompt) }
        .ok (state', 1)
    | none =>
      let system_prompt := get_generate_answer_node_prompt state.question state.executed_results
      .ok ({ state with final_answer := strip_think_block (llm system_prompt) }, 1)

/-! ### Conversation-memory server (`src/mcp_server/server_memory.py`) -/

/-- Model of `ChatMessage` dataclass; `metadata` defaults to an empty dict. -/
structure ChatMessage where
  message_id : String
  timestamp : String
  role : String
  content : String
  metadata : List (String × JValue)
deriving Repr

/-- Model of `memory_storage`: sessions to their message lists, insertion-ordered. -/
abbrev Storage := List (String × List ChatMessage)

def storageLookup (st : Storage) (session_id : String) : Option (List ChatMessage) :=
  match st with
  | [] => none
  | (k, v) :: rest => if k = session_id then some v else storageLookup rest session_id

/-- Append a message to a session's list, creating the session when absent
(`if session_id not in memory_storage: memory_storage[session_id] = []`). -/
def storageAppend (st : Storage) (session_id : String) (msg : ChatMessage) : Storage :=
  match st with
  | [] => [(session_id, [msg])]
  | (k, v) :: rest =>
    if k = session_id then (k, v ++ [msg]) :: rest
    else (k, v) :: storageAppend rest session_id msg

/-- What a `save_message` call returns and leaves behind.  `ret` is the
Python return value: the whole `memory_storage` dict in the branch that
stores a message, `None` (modelled `none`) when the function falls through
without returning. -/
structure SaveOutcome where
  ret : Option Storage
  storage : Storage
deriving Repr

/-- Model of `save_message`: the entire id-assignment/store/return logic sits inside
`if not message_id:`, so a call with a truthy `message_id` stores nothing
and returns `None`.  `now` stands for `datetime.now().isoformat()`.  The
`except` handler is unreachable here (no statement in the body raises). -/
def save_message (storage : Storage) (session_id role content : String)
    (message_id : Option String) (now : String) : SaveOutcome :=
  if message_id = none ∨ message_id = some "" then
    let mid := session_id ++ "_" ++ toString ((storageLookup storage session_id).getD []).length
    let message : ChatMessage := ⟨mid, now, role, content, []⟩
    let storage' := storageAppend storage session_id message
    ⟨some storage', storage'⟩
  else ⟨none, storage⟩

/-- The `{"success", "message", "data"}` payload of `get_messages` (the
`asdict` conversion of each message is field-order preserving, so `data`
keeps the `ChatMessage` records themselves). -/
structure GetMessagesResult where
  success : Bool
  message : String
  data : List ChatMessage
deriving Repr

/-- Model of `messages[-limit:]` (Python slice from a possibly negative index). -/
def pySliceFrom (xs : List ChatMessage) (i : Int) : List ChatMessage :=
  if 0 ≤ i then xs.drop i.toNat
  else xs.drop (max ((xs.length : Int) + i) 0).toNat

/-- Model of `get_messages`: unknown sessions answer success with empty data; a
truthy `limit` keeps only the last `limit` messages (`messages[-limit:]`);
`limit=0` or `limit=None` is falsy, so no truncation is applied. -/
def get_messages (storage : Storage) (session_id : String) (limit : Option Int) :
    GetMessagesResult :=
  match storageLookup storage session_id with
  | none => ⟨true, "해당 세션의 메세지가 없습니다", []⟩
  | some messages =>
    let messages :=
      match limit with
      | some l => if l != 0 then pySliceFrom messages (-l) else messages
      | none => messages
    ⟨true, toString messages.length ++ "개의 메세지를 찾았습니다", messages⟩

/-! ## Theorems -/

/-- C6: for every tool name not present among the loaded tools and every
argument mapping, `execute_tool(name, args)` returns the descriptive
failure string naming the missing tool; the function is total (every branch
returns a value), so no exception reaches the caller. -/
theorem execute_tool_unknown_name_fails_descriptively
    (w : ThreadSafeMCPWrapper) (name : String) (args : JValue)
    (hinit : w.initialized = true)
    (hmiss : w.all_tools.find? (fun t => (JValue.str t.name) == JValue.str name) = none) :
    w.execute_tool (.str name) args =
      .str ("도구 '" ++ name ++ "'를 찾을 수 없습니다") := by
  unfold ThreadSafeMCPWrapper.execute_tool
  rw [hinit, hmiss]
  rfl

/-- Witness for C6 at a concrete wrapper with one loaded tool and a
different requested name. -/
theorem execute_tool_unknown_name_fails_descriptively_witness :
    (ThreadSafeMCPWrapper.mk true [⟨"get_schema_info", fun _ => .null⟩]).initialized = true ∧
    (ThreadSafeMCPWrapper.mk true [⟨"get_schema_info", fun _ => .null⟩]).all_tools.find?
      (fun t => (JValue.str t.name) == JValue.str "mystery_tool") = none ∧
    (ThreadSafeMCPWrapper.mk true [⟨"get_schema_info", fun _ => .null⟩]).execute_tool
      (.str "mystery_tool") (.obj []) =
      .str "도구 'mystery_tool'를 찾을 수 없습니다" :=
  ⟨rfl, rfl,
   execute_tool_unknown_name_fails_descriptively
     ⟨true, [⟨"get_schema_info", fun _ => .null⟩]⟩ "mystery_tool" (.obj []) rfl rfl⟩

/-- C7: on a session holding `msgs` with `1 ≤ k < msgs.length`,
`get_messages` with `limit = k` succeeds and returns exactly the `k` most
recent messages, in insertion order (the final segment of the stored
list). -/
theorem get_messages_recent_window (storage : Storage) (sid : String)
    (msgs : List ChatMessage) (k : Nat)
    (hs : storageLookup storage sid = some msgs)
    (h1 : 1 ≤ k) (hN : k < msgs.length) :
    (get_messages storage sid (some (k : Int))).success = true ∧
    (get_messages storage sid (some (k : Int))).data = msgs.drop (msgs.length - k) ∧
    ((get_messages storage sid (some (k : Int))).data).length = k := by
  have hk0 : ((k : Int) != 0) = true := by
    simp only [bne_iff_ne, ne_eq]
    omega
  have hslice : pySliceFrom msgs (-(k : Int)) = msgs.drop (msgs.length - k) := by
    unfold pySliceFrom
    rw [if_neg (by omega)]
    congr 1
    rw [max_eq_left (by omega)]
    omega
  have hres : get_messages storage sid (some (k : Int)) =
      ⟨true, toString (msgs.drop (msgs.length - k)).length ++ "개의 메세지를 찾았습니다",
       msgs.drop (msgs.length - k)⟩ := by
    unfold get_messages
    rw [hs]
    simp [hk0, hslice]
  rw [hres]
  refine ⟨rfl, rfl, ?_⟩
  rw [List.length_drop]
  omega

/-- A concrete three-message session used by the memory-server witnesses. -/
def sampleMsgs : List ChatMessage :=
  [⟨"a", "t", "user", "1", []⟩, ⟨"b", "t", "user", "2", []⟩, ⟨"c", "t", "user", "3", []⟩]

/-- A concrete storage holding `sampleMsgs` under session `"s1"`. -/
def sampleStorage : Storage := [("s1", sampleMsgs)]

/-- Witness for C7: the three-message session queried with `limit = 2`. -/
theorem get_messages_recent_window_witness :
    storageLookup sampleStorage "s1" = some sampleMsgs ∧
    (get_messages sampleStorage "s1" (some ((2 : Nat) : Int))).data =
      sampleMsgs.drop (sampleMsgs.length - 2) :=
  ⟨rfl,
   (get_messages_recent_window sampleStorage "s1" sampleMsgs 2 rfl (by decide)
     (by decide)).2.1⟩

/-- C10: a falsy `limit` (`0` or `None`) skips the truncation entirely,
returning all of the session's messages, not zero of them. -/
theorem get_messages_falsy_limit_returns_all (storage : Storage) (sid : String)
    (msgs : List ChatMessage)
    (hs : storageLookup storage sid = some msgs) :
    get_messages storage sid none =
      ⟨true, toString msgs.length ++ "개의 메세지를 찾았습니다", msgs⟩ ∧
    get_messages storage sid (some 0) =
      ⟨true, toString msgs.length ++ "개의 메세지를 찾았습니다", msgs⟩ := by
  unfold get_messages
  rw [hs]
  exact ⟨rfl, rfl⟩

/-- Witness for C10 on the concrete sample session. -/
theorem get_messages_falsy_limit_returns_all_witness :
    storageLookup sampleStorage "s1" = some sampleMsgs ∧
    get_messages sampleStorage "s1" none =
      ⟨true, toString sampleMsgs.length ++ "개의 메세지를 찾았습니다", sampleMsgs⟩ :=
  ⟨rfl, (get_messages_falsy_limit_returns_all sampleStorage "s1" sampleMsgs rfl).1⟩

/-- C5 (code bug): a `save_message` call that supplies a truthy
`message_id` returns `None` and stores nothing — the entire
assign-id/build/append/return logic is nested inside `if not message_id:`,
contradicting the function's own docstring ("하나의 메세지를 저장합니다") and
the acknowledgement contract. -/
theorem save_message_supplied_id_discards (storage : Storage)
    (sid role content mid now : String) (hmid : mid ≠ "") :
    save_message storage sid role content (some mid) now = ⟨none, storage⟩ := by
  unfold save_message
  rw [if_neg]
  simp [hmid]

/-- Witness for C5's failing input: saving with `message_id = "custom_id"`
returns `None` and leaves the storage empty. -/
theorem save_message_supplied_id_discards_witness :
    ("custom_id" : String) ≠ "" ∧
    save_message [] "s1" "user" "hello" (some "custom_id") "2026-10-12T00:00:00" =
      ⟨none, []⟩ :=
  ⟨by decide,
   save_message_supplied_id_discards [] "s1" "user" "hello" "custom_id"
     "2026-10-12T00:00:00" (by decide)⟩

/-- C8: with an empty `executed_results` list, `generate_answer_node` sets
the fixed cannot-answer message and returns with zero requests sent to the
language-model endpoint. -/
theorem generate_answer_empty_no_model_call (state : AgentState)
    (llm : String → String) (h : state.executed_results = []) :
    generate_answer_node state llm =
      .ok ({ state with final_answer := "도구를 사용할 수 없어 답변을 생성할 수 없습니다." }, 0) := by
  unfold generate_answer_node
  rw [h]
  rfl

/-- Witness for C8 on a concrete empty-results state. -/
theorem generate_answer_empty_no_model_call_witness :
    (AgentState.mk [] "q" [] [] .null "" "s").executed_results = [] ∧
    generate_answer_node (AgentState.mk [] "q" [] [] .null "" "s") (fun _ => "model reply") =
      .ok (AgentState.mk [] "q" [] [] .null "도구를 사용할 수 없어 답변을 생성할 수 없습니다." "s", 0) :=
  ⟨rfl,
   generate_answer_empty_no_model_call (AgentState.mk [] "q" [] [] .null "" "s")
     (fun _ => "model reply") rfl⟩

/-- C2: when the cleaned model response (code fences stripped, then
reasoning blocks stripped) is not valid JSON, the planner sets `tool_calls`
to the empty list and `final_answer` to the cleaned text verbatim; the node
is a total function of the response (the `except Exception` handler absorbs
the parse failure), and it never consults the tool wrapper. -/
theorem plan_tools_fallback_on_invalid_json (state : AgentState) (resp : String)
    (h : jsonLoads (strip_think_block (strip_code_block resp)) = none) :
    plan_tools_node state resp =
      { state with tool_calls := [], final_answer := strip_think_block (strip_code_block resp) } := by
  unfold plan_tools_node
  simp only [h]

/-- A successful `execStep` leaves the invocation either untouched or with
only its `arguments` entry replaced (the in-place dict mutation). -/
theorem execStep_ok_call_shape {w : ThreadSafeMCPWrapper} {q sid : String}
    {call : JValue} {mem : Memory} {s : StepOut}
    (h : execStep w q sid call mem = .ok s) :
    s.call = call ∨ ∃ a, s.call = updateCallArgs call a := by
  cases call with
  | obj fs =>
    simp only [execStep] at h
    split at h
    · injection h with h'
      subst h'
      exact Or.inl rfl
    · split at h
      · exact Except.noConfusion h
      · split at h
        · exact Except.noConfusion h
        · injection h with h'
          subst h'
          exact Or.inr ⟨_, rfl⟩
        · injection h with h'
          subst h'
          exact Or.inr ⟨_, rfl⟩
  | null => exact Except.noConfusion h
  | boolean b => exact Except.noConfusion h
  | num n => exact Except.noConfusion h
  | flt m e => exact Except.noConfusion h
  | nonfinite a b => exact Except.noConfusion h
  | str s' => exact Except.noConfusion h
  | arr xs => exact Except.noConfusion h

/-- A successful executor run relates the stored plan to the returned one
pointwise: each invocation is unchanged except possibly its `arguments`. -/
theorem runCalls_calls_shape {w : ThreadSafeMCPWrapper} {q sid : String}
    {calls : List JValue} {mem : Memory} {o : RunOutcome}
    (h : runCalls w q sid calls mem = .ok o) :
    List.Forall₂ (fun c c' => c' = c ∨ ∃ a, c' = updateCallArgs c a) calls o.calls := by
  induction calls generalizing mem o with
  | nil =>
    unfold runCalls at h
    injection h with h'
    subst h'
    exact List.Forall₂.nil
  | cons call rest ih =>
    unfold runCalls at h
    split at h
    · exact Except.noConfusion h
    · rename_i s hs
      split at h
      · exact Except.noConfusion h
      · rename_i o' ho
        injection h with h'
        subst h'
        exact List.Forall₂.cons (execStep_ok_call_shape hs) (ih ho)

/-- C9 (frame): on any input state, a successfully completing
`execute_tools_node` assigns only `executed_results`; `question`,
`session_id`, `final_answer`, `messages` and `dataframe` are returned
unchanged, and each `tool_calls` entry differs from its input at most in
its `arguments` mapping (the injected keys). -/
theorem execute_tools_node_frame (state : AgentState) (w : ThreadSafeMCPWrapper)
    (out : AgentState) (h : execute_tools_node state w = .ok out) :
    out.question = state.question ∧ out.session_id = state.session_id ∧
    out.final_answer = state.final_answer ∧ out.messages = state.messages ∧
    out.dataframe = state.dataframe ∧
    List.Forall₂ (fun c c' => c' = c ∨ ∃ a, c' = updateCallArgs c a)
      state.tool_calls out.tool_calls := by
  unfold execute_tools_node at h
  split at h
  · exact Except.noConfusion h
  · rename_i o ho
    injection h with h'
    subst h'
    exact ⟨rfl, rfl, rfl, rfl, rfl, runCalls_calls_shape ho⟩

/-- Equality on string-valued `JValue`s is string equality. -/
theorem beqJ_str_str (a b : String) : (JValue.str a == JValue.str b) = (a == b) := rfl

/-- The `execute_sql` arguments after chaining: `exec_sql` is overwritten
with `str(validation_res.get("sql", ""))`. -/
def execSqlChainedArgs (vfs aFs : List (String × JValue)) : JValue :=
  .obj (dictSet aFs "exec_sql" (.str (pyStr (jgetD vfs "sql" (.str "")))))

/-- C1: for an `execute_sql` invocation, the most recent `validate_sql`
result in the lookup table (default `"{}"`) is parsed as JSON; with the
`valid` field absent or a JSON boolean (`hvalid` — the shape
`validate_sql` itself guarantees), a non-true `valid` appends the synthetic
record carrying the rejection message (with the validation `message`
interpolated) and does not call the tool (`invoked = none`, lookup table
unchanged); a true `valid` overwrites `exec_sql` with the stringified `sql`
field before the tool is invoked on exactly those arguments. -/
theorem execute_sql_gated_on_validation
    (w : ThreadSafeMCPWrapper) (q sid : String)
    (fs aFs vfs : List (String × JValue)) (mem : Memory) (b : Bool)
    (hfn : resolve_function_name fs = .str "execute_sql")
    (hargs : jgetD fs "arguments" (.obj []) = .obj aFs)
    (hparse : jsonLoadsJ (memGet mem (.str "validate_sql") (.str "\x7b\x7d")) =
      .ok (.obj vfs))
    (hvalid : jgetD vfs "valid" (.boolean false) = .boolean b) :
    (b = false →
      execStep w q sid (.obj fs) mem =
        .ok ⟨some ⟨.str "execute_sql", .obj aFs,
                   "SQL이 유효하지 않습니다: " ++ pyStr (jgetD vfs "message" (.str ""))⟩,
             updateCallArgs (.obj fs) (.obj aFs), mem, none⟩) ∧
    (b = true →
      execStep w q sid (.obj fs) mem =
        .ok ⟨some ⟨.str "execute_sql", execSqlChainedArgs vfs aFs,
                   pyStr (w.execute_tool (.str "execute_sql") (execSqlChainedArgs vfs aFs))⟩,
             updateCallArgs (.obj fs) (execSqlChainedArgs vfs aFs),
             memSet mem (.str "execute_sql")
               (w.execute_tool (.str "execute_sql") (execSqlChainedArgs vfs aFs)),
             some (.str "execute_sql", execSqlChainedArgs vfs aFs)⟩) := by
  constructor <;> intro hb <;> subst hb <;>
    simp [execStep, injectSession, chainArgs, execSqlChainedArgs,
      hfn, hargs, hparse, hvalid, beqJ_str_str, pyTruthy, pyGetAttrD, pySetItem]

/-- Witness for C1: a concrete `execute_sql` invocation rejected by a
`valid: false` validation result; the synthetic record carries the message
and no tool is invoked. -/
theorem execute_sql_gated_on_validation_witness :
    resolve_function_name [("function_name", .str "execute_sql"),
      ("arguments", .obj [("exec_sql", .str "...")])] = .str "execute_sql" ∧
    jgetD [("function_name", .str "execute_sql"),
      ("arguments", .obj [("exec_sql", .str "...")])] "arguments" (.obj []) =
      .obj [("exec_sql", .str "...")] ∧
    jsonLoadsJ (memGet [(.str "validate_sql",
      .str "\x7b\"valid\": false, \"message\": \"syntax error\", \"sql\": \"SELECT 1\"\x7d")]
      (.str "validate_sql") (.str "\x7b\x7d")) =
      .ok (.obj [("valid", .boolean false), ("message", .str "syntax error"),
        ("sql", .str "SELECT 1")]) ∧
    execStep ⟨true, []⟩ "q" "s"
      (.obj [("function_name", .str "execute_sql"),
        ("arguments", .obj [("exec_sql", .str "...")])])
      [(.str "validate_sql",
        .str "\x7b\"valid\": false, \"message\": \"syntax error\", \"sql\": \"SELECT 1\"\x7d")] =
      .ok ⟨some ⟨.str "execute_sql", .obj [("exec_sql", .str "...")],
             "SQL이 유효하지 않습니다: syntax error"⟩,
           .obj [("function_name", .str "execute_sql"),
             ("arguments", .obj [("exec_sql", .str "...")])],
           [(.str "validate_sql",
             .str "\x7b\"valid\": false, \"message\": \"syntax error\", \"sql\": \"SELECT 1\"\x7d")],
           none⟩ :=
  ⟨rfl, rfl, rfl,
   (execute_sql_gated_on_validation ⟨true, []⟩ "q" "s"
     [("function_name", .str "execute_sql"), ("arguments", .obj [("exec_sql", .str "...")])]
     [("exec_sql", .str "...")]
     [("valid", .boolean false), ("message", .str "syntax error"), ("sql", .str "SELECT 1")]
     [(.str "validate_sql",
       .str "\x7b\"valid\": false, \"message\": \"syntax error\", \"sql\": \"SELECT 1\"\x7d")]
     false rfl rfl rfl rfl).1 rfl⟩

/-- The `generate_sql` arguments after chaining: `natural_query` is the
original question and `schema_info` the chained schema value. -/
def genSqlChainedArgs (q : String) (sch : JValue) (aFs : List (String × JValue)) : JValue :=
  .obj (dictSet (dictSet aFs "natural_query" (.str q)) "schema_info" sch)

/-- C4: for a `generate_sql` invocation, before execution `natural_query`
is overwritten with the original question and `schema_info` with the most
recent `get_schema_info` result of the run — the stringification of that
result when it is a string, as every loaded tool result on this path is
(`get_schema_info` returns a JSON string) — or the empty mapping when
`get_schema_info` has not run; the tool is then invoked on exactly those
arguments. -/
theorem generate_sql_args_overwritten
    (w : ThreadSafeMCPWrapper) (q sid : String)
    (fs aFs : List (String × JValue)) (mem : Memory)
    (hfn : resolve_function_name fs = .str "generate_sql")
    (hargs : jgetD fs "arguments" (.obj []) = .obj aFs) :
    (memLookup mem (.str "get_schema_info") = none →
      execStep w q sid (.obj fs) mem =
        .ok ⟨some ⟨.str "generate_sql", genSqlChainedArgs q (.obj []) aFs,
               pyStr (w.execute_tool (.str "generate_sql") (genSqlChainedArgs q (.obj []) aFs))⟩,
             updateCallArgs (.obj fs) (genSqlChainedArgs q (.obj []) aFs),
             memSet mem (.str "generate_sql")
               (w.execute_tool (.str "generate_sql") (genSqlChainedArgs q (.obj []) aFs)),
             some (.str "generate_sql", genSqlChainedArgs q (.obj []) aFs)⟩) ∧
    (∀ s : String, memLookup mem (.str "get_schema_info") = some (.str s) →
      execStep w q sid (.obj fs) mem =
        .ok ⟨some ⟨.str "generate_sql", genSqlChainedArgs q (.str (pyStr (.str s))) aFs,
               pyStr (w.execute_tool (.str "generate_sql")
                 (genSqlChainedArgs q (.str (pyStr (.str s))) aFs))⟩,
             updateCallArgs (.obj fs) (genSqlChainedArgs q (.str (pyStr (.str s))) aFs),
             memSet mem (.str "generate_sql")
               (w.execute_tool (.str "generate_sql")
                 (genSqlChainedArgs q (.str (pyStr (.str s))) aFs)),
             some (.str "generate_sql", genSqlChainedArgs q (.str (pyStr (.str s))) aFs)⟩) := by
  constructor
  · intro hmem
    simp [execStep, injectSession, chainArgs, genSqlChainedArgs, memGet,
      hfn, hargs, hmem, beqJ_str_str, pyTruthy, pySetItem]
  · intro s hmem
    simp [execStep, injectSession, chainArgs, genSqlChainedArgs, memGet, pyStr,
      hfn, hargs, hmem, beqJ_str_str, pyTruthy, pySetItem]

/-- Witness for C4: a `generate_sql` invocation after a `get_schema_info`
call whose (string) result lands in `schema_info`. -/
theorem generate_sql_args_overwritten_witness :
    resolve_function_name [("function_name", .str "generate_sql"),
      ("arguments", .obj [])] = .str "generate_sql" ∧
    memLookup [(.str "get_schema_info", .str "\x7b\"tables\": \x7b\x7d\x7d")]
      (.str "get_schema_info") = some (.str "\x7b\"tables\": \x7b\x7d\x7d") ∧
    execStep ⟨true, []⟩ "how many rows" "s"
      (.obj [("function_name", .str "generate_sql"), ("arguments", .obj [])])
      [(.str "get_schema_info", .str "\x7b\"tables\": \x7b\x7d\x7d")] =
      .ok ⟨some ⟨.str "generate_sql",
             genSqlChainedArgs "how many rows"
               (.str (pyStr (.str "\x7b\"tables\": \x7b\x7d\x7d"))) [],
             pyStr ((⟨true, []⟩ : ThreadSafeMCPWrapper).execute_tool (.str "generate_sql")
               (genSqlChainedArgs "how many rows"
                 (.str (pyStr (.str "\x7b\"tables\": \x7b\x7d\x7d"))) []))⟩,
           updateCallArgs (.obj [("function_name", .str "generate_sql"), ("arguments", .obj [])])
             (genSqlChainedArgs "how many rows"
               (.str (pyStr (.str "\x7b\"tables\": \x7b\x7d\x7d"))) []),
           memSet [(.str "get_schema_info", .str "\x7b\"tables\": \x7b\x7d\x7d")]
             (.str "generate_sql")
             ((⟨true, []⟩ : ThreadSafeMCPWrapper).execute_tool (.str "generate_sql")
               (genSqlChainedArgs "how many rows"
                 (.str (pyStr (.str "\x7b\"tables\": \x7b\x7d\x7d"))) [])),
           some (.str "generate_sql",
             genSqlChainedArgs "how many rows"
               (.str (pyStr (.str "\x7b\"tables\": \x7b\x7d\x7d"))) [])⟩ :=
  ⟨rfl, rfl,
   (generate_sql_args_overwritten ⟨true, []⟩ "how many rows" "s"
     [("function_name", .str "generate_sql"), ("arguments", .obj [])] []
     [(.str "get_schema_info", .str "\x7b\"tables\": \x7b\x7d\x7d")] rfl rfl).2
     "\x7b\"tables\": \x7b\x7d\x7d" rfl⟩

/-- The state of the C3 counterexample: one planned invocation naming a
tool that no wrapper has loaded. -/
def c3State : AgentState :=
  ⟨[], "q", [.obj [("function_name", .str "no_such_tool"), ("arguments", .obj [])]],
   [], .null, "", "s"⟩

/-- An initialized wrapper with no loaded tools. -/
def c3Wrapper : ThreadSafeMCPWrapper := ⟨true, []⟩

/-- C3, counterexample: an invocation whose function name matches no loaded
tool is NOT a no-op — the executor appends an `ExecutedResult` carrying the
wrapper's tool-not-found message. -/
theorem unknown_tool_invocation_not_noop :
    (execute_tools_node c3State c3Wrapper).map (fun s => s.executed_results) =
      .ok [⟨.str "no_such_tool", .obj [], "도구 'no_such_tool'를 찾을 수 없습니다"⟩] ∧
    (execute_tools_node c3State c3Wrapper).map (fun s => s.executed_results.length) ≠
      .ok 0 := by
  refine ⟨rfl, ?_⟩
  intro h
  have key : (execute_tools_node c3State c3Wrapper).map (fun s => s.executed_results.length) =
      (.ok 1 : Except PyErr Nat) := rfl
  rw [key] at h
  injection h with h'
  omega

/-- C3, amended: an invocation with a truthy, non-chained function name that
matches no loaded tool still reaches the wrapper; the wrapper finds no tool
(so no tool operation runs) and returns the descriptive not-found string,
which the executor records as that invocation's `ExecutedResult` and stores
in the lookup table — the arguments are passed through unchanged. -/
theorem unknown_tool_invocation_records_not_found
    (w : ThreadSafeMCPWrapper) (q sid f : String)
    (fs : List (String × JValue)) (mem : Memory)
    (hfn : resolve_function_name fs = .str f)
    (hf : f ≠ "")
    (hspecial : f ∉ (["get_messages", "search_messages", "save_message",
      "generate_sql", "validate_sql", "execute_sql"] : List String))
    (hinit : w.initialized = true)
    (hmiss : w.all_tools.find? (fun t => (JValue.str t.name) == JValue.str f) = none) :
    execStep w q sid (.obj fs) mem =
      .ok ⟨some ⟨.str f, jgetD fs "arguments" (.obj []),
             "도구 '" ++ f ++ "'를 찾을 수 없습니다"⟩,
           updateCallArgs (.obj fs) (jgetD fs "arguments" (.obj [])),
           memSet mem (.str f) (.str ("도구 '" ++ f ++ "'를 찾을 수 없습니다")),
           some (.str f, jgetD fs "arguments" (.obj []))⟩ := by
  simp only [List.mem_cons, List.mem_singleton, not_or] at hspecial
  obtain ⟨h1, h2, h3, h4, h5, h6, -⟩ := hspecial
  have hmiss' : w.all_tools.find? (fun t => t.name == f) = none := by
    simpa [beqJ_str_str] using hmiss
  simp [execStep, injectSession, chainArgs, ThreadSafeMCPWrapper.execute_tool, pyStr, pyRepr,
    hfn, hf, h1, h2, h3, h4, h5, h6, hinit, hmiss', beqJ_str_str, pyTruthy]

/-- Witness for C3's amended statement at the counterexample's input. -/
theorem unknown_tool_invocation_records_not_found_witness :
    resolve_function_name [("function_name", .str "no_such_tool"), ("arguments", .obj [])] =
      .str "no_such_tool" ∧
    execStep c3Wrapper "q" "s"
      (.obj [("function_name", .str "no_such_tool"), ("arguments", .obj [])]) [] =
      .ok ⟨some ⟨.str "no_such_tool", .obj [], "도구 'no_such_tool'를 찾을 수 없습니다"⟩,
           .obj [("function_name", .str "no_such_tool"), ("arguments", .obj [])],
           [(.str "no_such_tool", .str "도구 'no_such_tool'를 찾을 수 없습니다")],
           some (.str "no_such_tool", .obj [])⟩ :=
  ⟨rfl, by
    have := unknown_tool_invocation_records_not_found c3Wrapper "q" "s" "no_such_tool"
      [("function_name", .str "no_such_tool"), ("arguments", .obj [])] []
      rfl (by decide) (by decide) rfl rfl
    simpa using this⟩

/-- A one-invocation state and a one-tool wrapper for the frame witness. -/
def frameState : AgentState :=
  ⟨[], "q", [.obj [("function_name", .str "echo_tool"), ("arguments", .obj [])]],
   [], .null, "prior answer", "sess"⟩

/-- The wrapper loaded with the single `echo_tool`. -/
def frameWrapper : ThreadSafeMCPWrapper :=
  ⟨true, [⟨"echo_tool", fun _ => .str "done"⟩]⟩

/-- Witness for C9 on a concrete one-invocation run. -/
theorem execute_tools_node_frame_witness :
    execute_tools_node frameState frameWrapper =
      .ok { frameState with
        executed_results := [⟨.str "echo_tool", .obj [], "done"⟩]
        tool_calls := [.obj [("function_name", .str "echo_tool"), ("arguments", .obj [])]] } ∧
    ({ frameState with
        executed_results := [⟨.str "echo_tool", .obj [], "done"⟩]
        tool_calls := [.obj [("function_name", .str "echo_tool"),
          ("arguments", .obj [])]] } : AgentState).question = frameState.question :=
  ⟨rfl,
   (execute_tools_node_frame frameState frameWrapper _ rfl).1⟩

/-- Witness for C2: a natural-language response with a reasoning block and
no JSON. -/
theorem plan_tools_fallback_on_invalid_json_witness :
    jsonLoads (strip_think_block (strip_code_block "<think>hmm</think>I cannot answer that.")) =
      none ∧
    plan_tools_node (AgentState.mk [] "q" [] [] .null "" "s")
      "<think>hmm</think>I cannot answer that." =
      { AgentState.mk [] "q" [] [] .null "" "s" with
        tool_calls := [], final_answer := "I cannot answer that." } :=
  ⟨rfl,
   plan_tools_fallback_on_invalid_json (AgentState.mk [] "q" [] [] .null "" "s")
     "<think>hmm</think>I cannot answer that." rfl⟩

end MCP

